import Mathlib

/-!
Shallow embedding of the tab-selector script `src/Frontend/js/tabs.js`.

The script is:

  let tabs = document.querySelectorAll('.tab-button');
  tabs.forEach(tab => {
    tab.addEventListener('click', () => {
      let target = tab.getAttribute('data-tab');
      tabs.forEach(t => t.classList.remove('active'));
      document.querySelectorAll('.tab-content').forEach(content => content.classList.remove('visible'));
      tab.classList.add('active');
      document.getElementById(target).classList.add('visible');
    });
  });

The document is modelled as a list of elements in document order; an element
is identified by its index in that list.  Each element carries the data the
script observes: its `id` attribute (absent or a string), its `data-tab`
attribute (absent or a string), and its class list.  The click handler for a
trigger is modelled as a state transformer returning `Except Doc Doc`:
`Except.ok` is normal completion, `Except.error` is the TypeError raised by
`document.getElementById(target).classList` when the id lookup returns null;
the payload is the document state at that point (all mutations before the
throw have happened).
-/

namespace Tabs

/-- A DOM element as the tabs script observes it: the `id` attribute
(`none` when absent), the `data-tab` attribute (`none` when absent), and
the class list in attribute order. -/
structure Elem where
  id : Option String
  dataTab : Option String
  classes : List String
deriving DecidableEq

/-- The document: its elements in document order.  An element reference is
an index into this list. -/
abbrev Doc := List Elem

/-- DOMTokenList.add: appends the token unless it is already present. -/
def addCl (c : String) (l : List String) : List String :=
  if c ∈ l then l else l ++ [c]

/-- DOMTokenList.remove: removes every occurrence of the token. -/
def remCl (c : String) (l : List String) : List String :=
  l.filter (fun x => decide (x ≠ c))

/-- `e.classList.add(c)`. -/
def classListAdd (e : Elem) (c : String) : Elem :=
  { e with classes := addCl c e.classes }

/-- `e.classList.remove(c)`. -/
def classListRemove (e : Elem) (c : String) : Elem :=
  { e with classes := remCl c e.classes }

/-- Whether the element at index `i` exists and carries class `c`. -/
def elemHas (d : Doc) (i : Nat) (c : String) : Bool :=
  match d[i]? with
  | some e => decide (c ∈ e.classes)
  | none => false

/-- Whether the element at index `i` exists and has id `s`. -/
def elemIdIs (d : Doc) (i : Nat) (s : String) : Bool :=
  match d[i]? with
  | some e => decide (e.id = some s)
  | none => false

/-- `document.querySelectorAll('.c')`: the indices of the elements carrying
class `c`, in document order. -/
def querySelectorAllClass (d : Doc) (c : String) : List Nat :=
  (List.range d.length).filter (fun i => elemHas d i c)

/-- `document.getElementById(s)`: the first element whose id is `s`, if any. -/
def getElementById (d : Doc) (s : String) : Option Nat :=
  (List.range d.length).find? (fun i => elemIdIs d i s)

/-- `tab.getAttribute('data-tab')` for the element at index `i`. -/
def getAttributeDataTab (d : Doc) (i : Nat) : Option String :=
  match d[i]? with
  | some e => e.dataTab
  | none => none

/-- The string actually passed to `document.getElementById`: `getAttribute`
returns null when the attribute is absent, and WebIDL converts a null
argument of `getElementById(DOMString)` to the string "null". -/
def idArg : Option String → String
  | some s => s
  | none => "null"

/-- Replace the element at index `i` by `f` of itself; out-of-range indices
leave the document unchanged. -/
def updateAt (d : Doc) (i : Nat) (f : Elem → Elem) : Doc :=
  match d[i]? with
  | some e => d.set i (f e)
  | none => d

/-- `l.forEach(t => t.classList.remove(c))` over a list of element indices. -/
def removeClassAll (c : String) (l : List Nat) (d : Doc) : Doc :=
  l.foldl (fun acc t => updateAt acc t (fun e => classListRemove e c)) d

/-- Line 7 of the script: `tabs.forEach(t => t.classList.remove('active'))`,
where `tabs` is the list of trigger indices captured at setup. -/
def deactivateAll (tabs : List Nat) (d : Doc) : Doc :=
  removeClassAll "active" tabs d

/-- Line 8 of the script: remove 'visible' from every element that carries
class 'tab-content' at this moment (the panel set is recomputed here). -/
def hideAllPanels (d : Doc) : Doc :=
  removeClassAll "visible" (querySelectorAllClass d "tab-content") d

/-- Lines 7, 8 and 11 of the script in order: clear 'active' on all captured
triggers, clear 'visible' on all current 'tab-content' elements, then add
'active' to the clicked trigger `i`.  This is the document state right
before the handler evaluates `document.getElementById(target)`. -/
def afterMark (tabs : List Nat) (i : Nat) (d : Doc) : Doc :=
  updateAt (hideAllPanels (deactivateAll tabs d)) i (fun e => classListAdd e "active")

/-- The click handler attached to the trigger at index `i`, with `tabs` the
trigger list captured at setup.  Follows the script line by line: the
`data-tab` attribute is read from the clicked trigger first (line 5, before
any mutation), the three mutation steps of `afterMark` run, then the target
id is looked up in the mutated document and 'visible' is added to the found
element.  When the lookup finds nothing, `null.classList` raises a
TypeError: modelled by `Except.error` carrying the state reached so far. -/
def clickStep (tabs : List Nat) (i : Nat) (d : Doc) : Except Doc Doc :=
  match getElementById (afterMark tabs i d) (idArg (getAttributeDataTab d i)) with
  | some j => Except.ok (updateAt (afterMark tabs i d) j (fun e => classListAdd e "visible"))
  | none => Except.error (afterMark tabs i d)

/-- The document state after the click handler has run, whether it completed
normally or stopped at the TypeError. -/
def clickState (tabs : List Nat) (i : Nat) (d : Doc) : Doc :=
  match clickStep tabs i d with
  | Except.ok d' => d'
  | Except.error d' => d'

/-- Whether the click handler terminated abnormally (the TypeError escaped). -/
def clickThrew (tabs : List Nat) (i : Nat) (d : Doc) : Bool :=
  match clickStep tabs i d with
  | Except.ok _ => false
  | Except.error _ => true

/-- Line 1 of the script: the trigger set captured once at setup,
`document.querySelectorAll('.tab-button')`. -/
def tabsSnapshot (d : Doc) : List Nat :=
  querySelectorAllClass d "tab-button"

/-- The current panel set: the elements carrying class 'tab-content'. -/
def panels (d : Doc) : List Nat :=
  querySelectorAllClass d "tab-content"

/-- The element index that the click handler for trigger `i` will pass
`classList.add('visible')` to, if the id lookup finds one. -/
def resolveTarget (d : Doc) (i : Nat) : Option Nat :=
  getElementById d (idArg (getAttributeDataTab d i))

/-- A sequence of clicks, each handled with the same captured trigger list. -/
def clickSeq (tabs : List Nat) (seq : List Nat) (d : Doc) : Doc :=
  seq.foldl (fun acc i => clickState tabs i acc) d

/-- The element at index `k` exists and carries the 'active' marker. -/
def activeAt (d : Doc) (k : Nat) : Bool :=
  elemHas d k "active"

/-- The element at index `k` exists and carries the 'visible' marker. -/
def visibleAt (d : Doc) (k : Nat) : Bool :=
  elemHas d k "visible"

/-- The element at index `k` exists and is a panel (class 'tab-content'). -/
def panelAt (d : Doc) (k : Nat) : Bool :=
  elemHas d k "tab-content"

/-- What one click does to the single element at index `k`, as a function of
the captured trigger list `S`, the click-time panel list `P`, the clicked
index `i` and the resolved target `j?`.  Mirrors the four mutation steps of
the handler in order. -/
def elemStep (S P : List Nat) (i : Nat) (j? : Option Nat) (k : Nat) (e : Elem) : Elem :=
  let e1 := if k ∈ S then classListRemove e "active" else e
  let e2 := if k ∈ P then classListRemove e1 "visible" else e1
  let e3 := if k = i then classListAdd e2 "active" else e2
  if j? = some k then classListAdd e3 "visible" else e3

/-- Observational equality of elements: same id, same `data-tab`, and the
same set of class tokens (the order of tokens inside the class attribute is
not part of the marker state). -/
def ElemEquiv (e e' : Elem) : Prop :=
  e.id = e'.id ∧ e.dataTab = e'.dataTab ∧ ∀ c : String, c ∈ e.classes ↔ c ∈ e'.classes

/-- Observational equality of documents: same length and observationally
equal elements at every index. -/
def DocEquiv (d d' : Doc) : Prop :=
  d.length = d'.length ∧
    ∀ k : Nat, ∀ e e' : Elem, d[k]? = some e → d'[k]? = some e' → ElemEquiv e e'

/-- The two-trigger, two-panel scenario document of the spec: triggers
`tab-a`, `tab-b` with targets `panel-a`, `panel-b`, and the two panels. -/
def exDoc : Doc :=
  [ { id := some "tab-a", dataTab := some "panel-a", classes := ["tab-button"] },
    { id := some "tab-b", dataTab := some "panel-b", classes := ["tab-button"] },
    { id := some "panel-a", dataTab := none, classes := ["tab-content", "visible"] },
    { id := some "panel-b", dataTab := none, classes := ["tab-content"] } ]

/-- A document with a single trigger whose target id `missing` names no
element at all. -/
def exDocDangling : Doc :=
  [ { id := some "tab-x", dataTab := some "missing", classes := ["tab-button"] } ]

/-- A document with a dangling trigger and one unrelated panel. -/
def exDocInvariant : Doc :=
  [ { id := some "tab-x", dataTab := some "missing", classes := ["tab-button"] },
    { id := some "panel-a", dataTab := none, classes := ["tab-content"] } ]

/-- A document whose trigger targets a plain element that is neither a
trigger nor a panel. -/
def exDocFrame : Doc :=
  [ { id := some "tab-x", dataTab := some "x", classes := ["tab-button"] },
    { id := some "x", dataTab := none, classes := [] } ]

/-- A document with a trigger lacking the `data-tab` attribute and an
element whose id is the string "null". -/
def exDocNullId : Doc :=
  [ { id := some "tab-x", dataTab := none, classes := ["tab-button"] },
    { id := some "null", dataTab := none, classes := [] } ]

/-- A document with a trigger lacking the `data-tab` attribute and a panel. -/
def exDocNoAttr : Doc :=
  [ { id := some "tab-x", dataTab := none, classes := ["tab-button"] },
    { id := some "panel-a", dataTab := none, classes := ["tab-content", "visible"] } ]

/-- A document whose trigger targets a non-panel element, next to an
initially visible panel and an unrelated element. -/
def exDocMisTarget : Doc :=
  [ { id := some "tab-x", dataTab := some "x", classes := ["tab-button"] },
    { id := some "x", dataTab := none, classes := [] },
    { id := some "panel-a", dataTab := none, classes := ["tab-content", "visible"] },
    { id := some "other", dataTab := none, classes := ["note"] } ]

/-- A setup-time document holding a single trigger whose target panel does
not exist yet. -/
def exDocBase : Doc :=
  [ { id := some "tab-x", dataTab := some "late", classes := ["tab-button"] } ]

/-- An extension appended after setup: a panel with id `late`, already
marked visible. -/
def exDocLate : Doc :=
  [ { id := some "late", dataTab := none, classes := ["tab-content", "visible"] } ]

/-- An extension appended after setup: a trigger element already marked
active. -/
def exDocLateTrigger : Doc :=
  [ { id := some "tab-late", dataTab := some "late", classes := ["tab-button", "active"] } ]

/-! ### Token-level lemmas about `addCl` and `remCl` -/

theorem mem_addCl {a c : String} {l : List String} :
    a ∈ addCl c l ↔ a ∈ l ∨ a = c := by
  unfold addCl
  by_cases h : c ∈ l
  · simp only [if_pos h]
    constructor
    · exact Or.inl
    · rintro (hm | rfl)
      · exact hm
      · exact h
  · simp [if_neg h, List.mem_append]

theorem mem_remCl {a c : String} {l : List String} :
    a ∈ remCl c l ↔ a ∈ l ∧ a ≠ c := by
  simp [remCl, List.mem_filter]

theorem remCl_remCl_self (c : String) (l : List String) :
    remCl c (remCl c l) = remCl c l := by
  simp [remCl, List.filter_filter]

/-! ### Lemmas about the element-level class operations -/

theorem id_classListAdd (e : Elem) (c : String) : (classListAdd e c).id = e.id := rfl

theorem id_classListRemove (e : Elem) (c : String) : (classListRemove e c).id = e.id := rfl

theorem dataTab_classListAdd (e : Elem) (c : String) :
    (classListAdd e c).dataTab = e.dataTab := rfl

theorem dataTab_classListRemove (e : Elem) (c : String) :
    (classListRemove e c).dataTab = e.dataTab := rfl

theorem mem_classes_classListAdd {e : Elem} {a c : String} :
    a ∈ (classListAdd e c).classes ↔ a ∈ e.classes ∨ a = c := mem_addCl

theorem mem_classes_classListRemove {e : Elem} {a c : String} :
    a ∈ (classListRemove e c).classes ↔ a ∈ e.classes ∧ a ≠ c := mem_remCl

theorem classListRemove_classListRemove_self (e : Elem) (c : String) :
    classListRemove (classListRemove e c) c = classListRemove e c := by
  simp [classListRemove, remCl_remCl_self]

/-! ### Pointwise description of the list-indexed operations -/

theorem getElem?_updateAt (d : Doc) (i k : Nat) (f : Elem → Elem) :
    (updateAt d i f)[k]? = if k = i then (d[k]?).map f else d[k]? := by
  unfold updateAt
  cases h : d[i]? with
  | none =>
    by_cases hk : k = i
    · subst hk; simp [h]
    · simp [hk]
  | some e =>
    have hlen : i < d.length := by
      by_contra hge
      rw [List.getElem?_eq_none (Nat.le_of_not_lt hge)] at h
      exact Option.noConfusion h
    by_cases hk : k = i
    · subst hk
      simp [List.getElem?_set, hlen, h]
    · have hik : ¬ i = k := fun hh => hk hh.symm
      simp [List.getElem?_set, hik, hk]

theorem length_updateAt (d : Doc) (i : Nat) (f : Elem → Elem) :
    (updateAt d i f).length = d.length := by
  unfold updateAt
  cases h : d[i]? with
  | none => rfl
  | some e => simp

theorem getElem?_removeClassAll (c : String) (l : List Nat) (d : Doc) (k : Nat) :
    (removeClassAll c l d)[k]? =
      if k ∈ l then (d[k]?).map (fun e => classListRemove e c) else d[k]? := by
  induction l generalizing d with
  | nil => simp [removeClassAll]
  | cons h t ih =>
    show (removeClassAll c t (updateAt d h (fun e => classListRemove e c)))[k]? = _
    rw [ih]
    by_cases hkt : k ∈ t
    · rw [if_pos hkt, if_pos (List.mem_cons.mpr (Or.inr hkt))]
      rw [getElem?_updateAt]
      by_cases hkh : k = h
      · rw [if_pos hkh, Option.map_map]
        cases d[k]? with
        | none => rfl
        | some e => simp [Function.comp, classListRemove_classListRemove_self]
      · rw [if_neg hkh]
    · rw [if_neg hkt, getElem?_updateAt]
      by_cases hkh : k = h
      · rw [if_pos hkh, if_pos (List.mem_cons.mpr (Or.inl hkh))]
      · rw [if_neg hkh, if_neg (by simp [List.mem_cons, hkh, hkt])]

theorem length_removeClassAll (c : String) (l : List Nat) (d : Doc) :
    (removeClassAll c l d).length = d.length := by
  induction l generalizing d with
  | nil => rfl
  | cons h t ih =>
    show (removeClassAll c t (updateAt d h _)).length = _
    rw [ih, length_updateAt]

/-- Congruence for `List.find?` under a pointwise equal predicate. -/
theorem find_congr {α : Type} {p q : α → Bool} (l : List α) (h : ∀ a ∈ l, p a = q a) :
    l.find? p = l.find? q := by
  induction l with
  | nil => rfl
  | cons x t ih =>
    have hx := h x (List.mem_cons_self x t)
    simp only [List.find?]
    rw [hx]
    cases q x with
    | false => exact ih (fun a ha => h a (List.mem_cons_of_mem x ha))
    | true => rfl

theorem elemHas_iff {d : Doc} {k : Nat} {c : String} :
    elemHas d k c = true ↔ ∃ e, d[k]? = some e ∧ c ∈ e.classes := by
  unfold elemHas
  cases h : d[k]? with
  | none => simp
  | some e => simp [h]

theorem elemIdIs_iff {d : Doc} {k : Nat} {s : String} :
    elemIdIs d k s = true ↔ ∃ e, d[k]? = some e ∧ e.id = some s := by
  unfold elemIdIs
  cases h : d[k]? with
  | none => simp
  | some e => simp [h]

theorem elemHas_lt_length {d : Doc} {k : Nat} {c : String} (h : elemHas d k c = true) :
    k < d.length := by
  rcases elemHas_iff.mp h with ⟨e, he, _⟩
  by_contra hge
  rw [List.getElem?_eq_none (Nat.le_of_not_lt hge)] at he
  exact Option.noConfusion he

theorem mem_querySelectorAllClass {d : Doc} {c : String} {k : Nat} :
    k ∈ querySelectorAllClass d c ↔ elemHas d k c = true := by
  unfold querySelectorAllClass
  rw [List.mem_filter, List.mem_range]
  constructor
  · exact fun h => h.2
  · exact fun h => ⟨elemHas_lt_length h, h⟩

theorem getElementById_idIs {d : Doc} {s : String} {j : Nat}
    (h : getElementById d s = some j) : elemIdIs d j s = true := by
  have := List.find?_some (p := fun i => elemIdIs d i s) h
  exact this

/-! ### Stability: the class-marker mutations do not change lengths, ids,
`data-tab` attributes, or membership in classes other than the one
touched. -/

theorem elemHas_removeClassAll_ne {c c' : String} (hne : c ≠ c') (l : List Nat)
    (d : Doc) (k : Nat) : elemHas (removeClassAll c' l d) k c = elemHas d k c := by
  unfold elemHas
  rw [getElem?_removeClassAll]
  by_cases hk : k ∈ l
  · rw [if_pos hk]
    cases d[k]? with
    | none => rfl
    | some e => simp [mem_classes_classListRemove, hne]
  · rw [if_neg hk]

theorem elemIdIs_removeClassAll (c : String) (l : List Nat) (d : Doc) (k : Nat)
    (s : String) : elemIdIs (removeClassAll c l d) k s = elemIdIs d k s := by
  unfold elemIdIs
  rw [getElem?_removeClassAll]
  by_cases hk : k ∈ l
  · rw [if_pos hk]
    cases d[k]? with
    | none => rfl
    | some e => simp [id_classListRemove]
  · rw [if_neg hk]

theorem elemHas_updateAt_add_ne {c c' : String} (hne : c ≠ c') (d : Doc) (i k : Nat) :
    elemHas (updateAt d i (fun e => classListAdd e c')) k c = elemHas d k c := by
  unfold elemHas
  rw [getElem?_updateAt]
  by_cases hk : k = i
  · rw [if_pos hk]
    cases d[k]? with
    | none => rfl
    | some e => simp [mem_classes_classListAdd, hne]
  · rw [if_neg hk]

theorem elemIdIs_updateAt_add (c : String) (d : Doc) (i k : Nat) (s : String) :
    elemIdIs (updateAt d i (fun e => classListAdd e c)) k s = elemIdIs d k s := by
  unfold elemIdIs
  rw [getElem?_updateAt]
  by_cases hk : k = i
  · rw [if_pos hk]
    cases d[k]? with
    | none => rfl
    | some e => simp [id_classListAdd]
  · rw [if_neg hk]

theorem querySelectorAllClass_removeClassAll_ne {c c' : String} (hne : c ≠ c')
    (l : List Nat) (d : Doc) :
    querySelectorAllClass (removeClassAll c' l d) c = querySelectorAllClass d c := by
  unfold querySelectorAllClass
  rw [length_removeClassAll]
  exact List.filter_congr (fun x _ => elemHas_removeClassAll_ne hne l d x)

theorem getElementById_removeClassAll (c : String) (l : List Nat) (d : Doc)
    (s : String) : getElementById (removeClassAll c l d) s = getElementById d s := by
  unfold getElementById
  rw [length_removeClassAll]
  exact find_congr _ (fun x _ => elemIdIs_removeClassAll c l d x s)

theorem getElementById_updateAt_add (c : String) (d : Doc) (i : Nat) (s : String) :
    getElementById (updateAt d i (fun e => classListAdd e c)) s = getElementById d s := by
  unfold getElementById
  rw [length_updateAt]
  exact find_congr _ (fun x _ => elemIdIs_updateAt_add c d i x s)

theorem length_afterMark (S : List Nat) (i : Nat) (d : Doc) :
    (afterMark S i d).length = d.length := by
  unfold afterMark hideAllPanels deactivateAll
  rw [length_updateAt, length_removeClassAll, length_removeClassAll]

theorem getElementById_afterMark (S : List Nat) (i : Nat) (d : Doc) (s : String) :
    getElementById (afterMark S i d) s = getElementById d s := by
  unfold afterMark hideAllPanels deactivateAll
  rw [getElementById_updateAt_add, getElementById_removeClassAll,
    getElementById_removeClassAll]

/-! ### Pointwise characterization of a whole click -/

theorem getElem?_afterMark (S : List Nat) (i : Nat) (d : Doc) (k : Nat) :
    (afterMark S i d)[k]? = (d[k]?).map (fun e =>
      let e1 := if k ∈ S then classListRemove e "active" else e
      let e2 := if k ∈ panels d then classListRemove e1 "visible" else e1
      if k = i then classListAdd e2 "active" else e2) := by
  have hq : querySelectorAllClass (deactivateAll S d) "tab-content" = panels d := by
    unfold deactivateAll panels
    exact querySelectorAllClass_removeClassAll_ne (by decide) S d
  unfold afterMark hideAllPanels deactivateAll
  rw [getElem?_updateAt, getElem?_removeClassAll]
  unfold deactivateAll at hq
  rw [hq, getElem?_removeClassAll]
  cases d[k]? with
  | none =>
    by_cases h2 : k ∈ panels d <;> by_cases h3 : k = i <;> simp [h2, h3]
  | some e =>
    by_cases h3 : k = i
    · subst h3
      by_cases h1 : k ∈ S <;> by_cases h2 : k ∈ panels d <;> simp [h1, h2]
    · by_cases h1 : k ∈ S <;> by_cases h2 : k ∈ panels d <;> simp [h1, h2, h3]

theorem getElem?_clickState (S : List Nat) (i : Nat) (d : Doc) (k : Nat) :
    (clickState S i d)[k]? = (d[k]?).map (elemStep S (panels d) i (resolveTarget d i) k) := by
  have hres : getElementById (afterMark S i d) (idArg (getAttributeDataTab d i)) =
      resolveTarget d i := by
    rw [getElementById_afterMark]; rfl
  unfold clickState clickStep
  rw [hres]
  cases hr : resolveTarget d i with
  | none =>
    simp only []
    rw [getElem?_afterMark]
    cases d[k]? with
    | none => rfl
    | some e => simp [elemStep, hr]
  | some j =>
    simp only []
    rw [getElem?_updateAt, getElem?_afterMark]
    by_cases hk : k = j
    · rw [if_pos hk]
      cases d[k]? with
      | none => rfl
      | some e => simp [elemStep, hr, hk]
    · rw [if_neg hk]
      cases d[k]? with
      | none => rfl
      | some e =>
        have hjk : ¬ j = k := fun h => hk h.symm
        simp [elemStep, hr, hjk]

theorem length_clickState (S : List Nat) (i : Nat) (d : Doc) :
    (clickState S i d).length = d.length := by
  unfold clickState clickStep
  cases hr : getElementById (afterMark S i d) (idArg (getAttributeDataTab d i)) with
  | none => exact length_afterMark S i d
  | some j => rw [length_updateAt, length_afterMark]

/-! ### What one click does to the markers of a single element -/

theorem elemStep_id (S P : List Nat) (i : Nat) (j? : Option Nat) (k : Nat) (e : Elem) :
    (elemStep S P i j? k e).id = e.id := by
  unfold elemStep
  by_cases h3 : k = i
  · subst h3
    by_cases h1 : k ∈ S <;> by_cases h2 : k ∈ P <;> by_cases h4 : j? = some k <;>
      simp [h1, h2, h4, id_classListAdd, id_classListRemove]
  · by_cases h1 : k ∈ S <;> by_cases h2 : k ∈ P <;> by_cases h4 : j? = some k <;>
      simp [h1, h2, h3, h4, id_classListAdd, id_classListRemove]

theorem elemStep_dataTab (S P : List Nat) (i : Nat) (j? : Option Nat) (k : Nat) (e : Elem) :
    (elemStep S P i j? k e).dataTab = e.dataTab := by
  unfold elemStep
  by_cases h3 : k = i
  · subst h3
    by_cases h1 : k ∈ S <;> by_cases h2 : k ∈ P <;> by_cases h4 : j? = some k <;>
      simp [h1, h2, h4, dataTab_classListAdd, dataTab_classListRemove]
  · by_cases h1 : k ∈ S <;> by_cases h2 : k ∈ P <;> by_cases h4 : j? = some k <;>
      simp [h1, h2, h3, h4, dataTab_classListAdd, dataTab_classListRemove]

theorem elemStep_mem_active (S P : List Nat) (i : Nat) (j? : Option Nat) (k : Nat)
    (e : Elem) : "active" ∈ (elemStep S P i j? k e).classes ↔
      k = i ∨ (k ∉ S ∧ "active" ∈ e.classes) := by
  unfold elemStep
  by_cases h3 : k = i
  · subst h3
    by_cases h1 : k ∈ S <;> by_cases h2 : k ∈ P <;> by_cases h4 : j? = some k <;>
      simp [h1, h2, h4, mem_classes_classListAdd, mem_classes_classListRemove]
  · by_cases h1 : k ∈ S <;> by_cases h2 : k ∈ P <;> by_cases h4 : j? = some k <;>
      simp [h1, h2, h3, h4, mem_classes_classListAdd, mem_classes_classListRemove]

theorem elemStep_mem_visible (S P : List Nat) (i : Nat) (j? : Option Nat) (k : Nat)
    (e : Elem) : "visible" ∈ (elemStep S P i j? k e).classes ↔
      j? = some k ∨ (k ∉ P ∧ "visible" ∈ e.classes) := by
  unfold elemStep
  by_cases h3 : k = i
  · subst h3
    by_cases h1 : k ∈ S <;> by_cases h2 : k ∈ P <;> by_cases h4 : j? = some k <;>
      simp [h1, h2, h4, mem_classes_classListAdd, mem_classes_classListRemove]
  · by_cases h1 : k ∈ S <;> by_cases h2 : k ∈ P <;> by_cases h4 : j? = some k <;>
      simp [h1, h2, h3, h4, mem_classes_classListAdd, mem_classes_classListRemove]

theorem elemStep_mem_other (S P : List Nat) (i : Nat) (j? : Option Nat) (k : Nat)
    (e : Elem) {c : String} (ha : c ≠ "active") (hv : c ≠ "visible") :
    c ∈ (elemStep S P i j? k e).classes ↔ c ∈ e.classes := by
  unfold elemStep
  by_cases h3 : k = i
  · subst h3
    by_cases h1 : k ∈ S <;> by_cases h2 : k ∈ P <;> by_cases h4 : j? = some k <;>
      simp [h1, h2, h4, mem_classes_classListAdd, mem_classes_classListRemove, ha, hv]
  · by_cases h1 : k ∈ S <;> by_cases h2 : k ∈ P <;> by_cases h4 : j? = some k <;>
      simp [h1, h2, h3, h4, mem_classes_classListAdd, mem_classes_classListRemove, ha, hv]

/-! ### Marker state after one click, element by element -/

theorem activeAt_clickState (S : List Nat) (i : Nat) (d : Doc) (k : Nat) :
    activeAt (clickState S i d) k = true ↔
      ∃ e, d[k]? = some e ∧ (k = i ∨ (k ∉ S ∧ "active" ∈ e.classes)) := by
  unfold activeAt
  rw [elemHas_iff]
  constructor
  · rintro ⟨e', he', hmem⟩
    rw [getElem?_clickState S i d k] at he'
    cases hd : d[k]? with
    | none => rw [hd] at he'; exact Option.noConfusion he'
    | some e =>
      rw [hd] at he'
      refine ⟨e, rfl, ?_⟩
      have : e' = elemStep S (panels d) i (resolveTarget d i) k e := by
        simpa using he'.symm
      rw [this] at hmem
      exact (elemStep_mem_active _ _ _ _ _ _).mp hmem
  · rintro ⟨e, he, hcond⟩
    refine ⟨elemStep S (panels d) i (resolveTarget d i) k e, ?_, ?_⟩
    · rw [getElem?_clickState S i d k, he]; rfl
    · exact (elemStep_mem_active _ _ _ _ _ _).mpr hcond

theorem visibleAt_clickState (S : List Nat) (i : Nat) (d : Doc) (k : Nat) :
    visibleAt (clickState S i d) k = true ↔
      ∃ e, d[k]? = some e ∧
        (resolveTarget d i = some k ∨ (k ∉ panels d ∧ "visible" ∈ e.classes)) := by
  unfold visibleAt
  rw [elemHas_iff]
  constructor
  · rintro ⟨e', he', hmem⟩
    rw [getElem?_clickState S i d k] at he'
    cases hd : d[k]? with
    | none => rw [hd] at he'; exact Option.noConfusion he'
    | some e =>
      rw [hd] at he'
      refine ⟨e, rfl, ?_⟩
      have : e' = elemStep S (panels d) i (resolveTarget d i) k e := by
        simpa using he'.symm
      rw [this] at hmem
      exact (elemStep_mem_visible _ _ _ _ _ _).mp hmem
  · rintro ⟨e, he, hcond⟩
    refine ⟨elemStep S (panels d) i (resolveTarget d i) k e, ?_, ?_⟩
    · rw [getElem?_clickState S i d k, he]; rfl
    · exact (elemStep_mem_visible _ _ _ _ _ _).mpr hcond

theorem elemHas_clickState_other (S : List Nat) (i : Nat) (d : Doc) (k : Nat)
    {c : String} (ha : c ≠ "active") (hv : c ≠ "visible") :
    elemHas (clickState S i d) k c = elemHas d k c := by
  unfold elemHas
  rw [getElem?_clickState S i d k]
  cases d[k]? with
  | none => rfl
  | some e => simp [elemStep_mem_other S (panels d) i (resolveTarget d i) k e ha hv]

theorem elemIdIs_clickState (S : List Nat) (i : Nat) (d : Doc) (k : Nat) (s : String) :
    elemIdIs (clickState S i d) k s = elemIdIs d k s := by
  unfold elemIdIs
  rw [getElem?_clickState S i d k]
  cases d[k]? with
  | none => rfl
  | some e => simp [elemStep_id]

theorem getAttributeDataTab_clickState (S : List Nat) (i : Nat) (d : Doc) (k : Nat) :
    getAttributeDataTab (clickState S i d) k = getAttributeDataTab d k := by
  unfold getAttributeDataTab
  rw [getElem?_clickState S i d k]
  cases d[k]? with
  | none => rfl
  | some e => simp [elemStep_dataTab]

theorem panelAt_clickState (S : List Nat) (i : Nat) (d : Doc) (k : Nat) :
    panelAt (clickState S i d) k = panelAt d k :=
  elemHas_clickState_other S i d k (by decide) (by decide)

theorem panels_clickState (S : List Nat) (i : Nat) (d : Doc) :
    panels (clickState S i d) = panels d := by
  unfold panels querySelectorAllClass
  rw [length_clickState]
  exact List.filter_congr
    (fun x _ => elemHas_clickState_other S i d x (by decide) (by decide))

theorem tabsSnapshot_clickState (S : List Nat) (i : Nat) (d : Doc) :
    tabsSnapshot (clickState S i d) = tabsSnapshot d := by
  unfold tabsSnapshot querySelectorAllClass
  rw [length_clickState]
  exact List.filter_congr
    (fun x _ => elemHas_clickState_other S i d x (by decide) (by decide))

theorem getElementById_clickState (S : List Nat) (i : Nat) (d : Doc) (s : String) :
    getElementById (clickState S i d) s = getElementById d s := by
  unfold getElementById
  rw [length_clickState]
  exact find_congr _ (fun x _ => elemIdIs_clickState S i d x s)

theorem resolveTarget_clickState (S : List Nat) (i i' : Nat) (d : Doc) :
    resolveTarget (clickState S i d) i' = resolveTarget d i' := by
  unfold resolveTarget
  rw [getAttributeDataTab_clickState, getElementById_clickState]

/-! ### Repeating the same click leaves every marker unchanged -/

theorem elemStep_equiv_idem (S P : List Nat) (i : Nat) (j? : Option Nat) (k : Nat)
    (e : Elem) :
    ElemEquiv (elemStep S P i j? k (elemStep S P i j? k e)) (elemStep S P i j? k e) := by
  refine ⟨by rw [elemStep_id, elemStep_id], by rw [elemStep_dataTab, elemStep_dataTab], ?_⟩
  intro c
  by_cases ha : c = "active"
  · subst ha
    constructor
    · intro h
      rcases (elemStep_mem_active _ _ _ _ _ _).mp h with hi | ⟨hS, hmem⟩
      · exact (elemStep_mem_active _ _ _ _ _ _).mpr (Or.inl hi)
      · exact hmem
    · intro h
      rcases (elemStep_mem_active _ _ _ _ _ _).mp h with hi | ⟨hS, hmem⟩
      · exact (elemStep_mem_active _ _ _ _ _ _).mpr (Or.inl hi)
      · exact (elemStep_mem_active _ _ _ _ _ _).mpr
          (Or.inr ⟨hS, (elemStep_mem_active _ _ _ _ _ _).mpr (Or.inr ⟨hS, hmem⟩)⟩)
  · by_cases hv : c = "visible"
    · subst hv
      constructor
      · intro h
        rcases (elemStep_mem_visible _ _ _ _ _ _).mp h with hj | ⟨hP, hmem⟩
        · exact (elemStep_mem_visible _ _ _ _ _ _).mpr (Or.inl hj)
        · exact hmem
      · intro h
        rcases (elemStep_mem_visible _ _ _ _ _ _).mp h with hj | ⟨hP, hmem⟩
        · exact (elemStep_mem_visible _ _ _ _ _ _).mpr (Or.inl hj)
        · exact (elemStep_mem_visible _ _ _ _ _ _).mpr
            (Or.inr ⟨hP, (elemStep_mem_visible _ _ _ _ _ _).mpr (Or.inr ⟨hP, hmem⟩)⟩)
    · rw [elemStep_mem_other _ _ _ _ _ _ ha hv]

/-! ### Stability through a whole click sequence -/

theorem length_clickSeq (S seq : List Nat) (d : Doc) :
    (clickSeq S seq d).length = d.length := by
  induction seq generalizing d with
  | nil => rfl
  | cons x t ih =>
    show (clickSeq S t (clickState S x d)).length = _
    rw [ih, length_clickState]

theorem panelAt_clickSeq (S seq : List Nat) (d : Doc) (k : Nat) :
    panelAt (clickSeq S seq d) k = panelAt d k := by
  induction seq generalizing d with
  | nil => rfl
  | cons x t ih =>
    show panelAt (clickSeq S t (clickState S x d)) k = _
    rw [ih, panelAt_clickState]

theorem panels_clickSeq (S seq : List Nat) (d : Doc) :
    panels (clickSeq S seq d) = panels d := by
  induction seq generalizing d with
  | nil => rfl
  | cons x t ih =>
    show panels (clickSeq S t (clickState S x d)) = _
    rw [ih, panels_clickState]

theorem resolveTarget_clickSeq (S seq : List Nat) (i : Nat) (d : Doc) :
    resolveTarget (clickSeq S seq d) i = resolveTarget d i := by
  induction seq generalizing d with
  | nil => rfl
  | cons x t ih =>
    show resolveTarget (clickSeq S t (clickState S x d)) i = _
    rw [ih, resolveTarget_clickState]

theorem getAttributeDataTab_clickSeq (S seq : List Nat) (i : Nat) (d : Doc) :
    getAttributeDataTab (clickSeq S seq d) i = getAttributeDataTab d i := by
  induction seq generalizing d with
  | nil => rfl
  | cons x t ih =>
    show getAttributeDataTab (clickSeq S t (clickState S x d)) i = _
    rw [ih, getAttributeDataTab_clickState]

theorem clickThrew_iff (S : List Nat) (i : Nat) (d : Doc) :
    clickThrew S i d = true ↔ resolveTarget d i = none := by
  unfold clickThrew clickStep
  rw [getElementById_afterMark]
  cases hr : getElementById d (idArg (getAttributeDataTab d i)) with
  | none => simp [resolveTarget, hr]
  | some j => simp [resolveTarget, hr]

/-! ### The claims -/

/-- C1: for every trigger in the set discovered at setup time, invoking its
click handler marks it 'active' and leaves every other trigger of that set
without the 'active' marker, from any starting marker state. -/
theorem tabs_click_unique_active (d : Doc) (i : Nat) (hi : i ∈ tabsSnapshot d) :
    activeAt (clickState (tabsSnapshot d) i d) i = true ∧
    ∀ t, t ∈ tabsSnapshot d → t ≠ i →
      activeAt (clickState (tabsSnapshot d) i d) t = false := by
  constructor
  · rcases elemHas_iff.mp (mem_querySelectorAllClass.mp hi) with ⟨e, he, _⟩
    exact (activeAt_clickState _ i d i).mpr ⟨e, he, Or.inl rfl⟩
  · intro t ht hne
    rcases Bool.eq_false_or_eq_true (activeAt (clickState (tabsSnapshot d) i d) t) with
      hb | hb
    · exfalso
      rcases (activeAt_clickState _ i d t).mp hb with ⟨e, _, hti | ⟨hS, _⟩⟩
      · exact hne hti
      · exact hS ht
    · exact hb

/-- Witness for C1 on the two-trigger scenario document: clicking `tab-a`
makes it active and leaves `tab-b` inactive. -/
theorem tabs_click_unique_active_witness :
    0 ∈ tabsSnapshot exDoc ∧
    activeAt (clickState (tabsSnapshot exDoc) 0 exDoc) 0 = true ∧
    activeAt (clickState (tabsSnapshot exDoc) 0 exDoc) 1 = false :=
  ⟨by decide,
    (tabs_click_unique_active exDoc 0 (by decide)).1,
    (tabs_click_unique_active exDoc 0 (by decide)).2 1 (by decide) (by decide)⟩

/-- C2: for every trigger whose `data-tab` identifier resolves to an element
that is a panel, invoking its click handler completes normally, that panel
ends with the 'visible' marker, and every other panel ends without it. -/
theorem tabs_click_shows_target (d : Doc) (i j : Nat) (s : String)
    (hi : i ∈ tabsSnapshot d)
    (hs : getAttributeDataTab d i = some s)
    (hj : getElementById d s = some j)
    (hp : panelAt d j = true) :
    clickThrew (tabsSnapshot d) i d = false ∧
    visibleAt (clickState (tabsSnapshot d) i d) j = true ∧
    ∀ k, panelAt d k = true → k ≠ j →
      visibleAt (clickState (tabsSnapshot d) i d) k = false := by
  have hres : resolveTarget d i = some j := by
    unfold resolveTarget
    rw [hs]
    exact hj
  refine ⟨?_, ?_, ?_⟩
  · rcases Bool.eq_false_or_eq_true (clickThrew (tabsSnapshot d) i d) with hb | hb
    · rw [(clickThrew_iff _ i d).mp hb] at hres
      exact Option.noConfusion hres
    · exact hb
  · rcases elemHas_iff.mp hp with ⟨e, he, _⟩
    exact (visibleAt_clickState _ i d j).mpr ⟨e, he, Or.inl hres⟩
  · intro k hk hne
    rcases Bool.eq_false_or_eq_true (visibleAt (clickState (tabsSnapshot d) i d) k) with
      hb | hb
    · exfalso
      rcases (visibleAt_clickState _ i d k).mp hb with ⟨e, _, hrk | ⟨hP, _⟩⟩
      · rw [hres] at hrk
        exact hne (Option.some.inj hrk).symm
      · exact hP (mem_querySelectorAllClass.mpr hk)
    · exact hb

/-- Witness for C2 on the scenario document: clicking `tab-b` completes
normally, shows `panel-b` and hides `panel-a`. -/
theorem tabs_click_shows_target_witness :
    1 ∈ tabsSnapshot exDoc ∧
    getAttributeDataTab exDoc 1 = some "panel-b" ∧
    getElementById exDoc "panel-b" = some 3 ∧
    panelAt exDoc 3 = true ∧
    clickThrew (tabsSnapshot exDoc) 1 exDoc = false ∧
    visibleAt (clickState (tabsSnapshot exDoc) 1 exDoc) 3 = true ∧
    visibleAt (clickState (tabsSnapshot exDoc) 1 exDoc) 2 = false :=
  ⟨by decide, by decide, by decide, by decide,
    (tabs_click_shows_target exDoc 1 3 "panel-b" (by decide) (by decide) (by decide)
      (by decide)).1,
    (tabs_click_shows_target exDoc 1 3 "panel-b" (by decide) (by decide) (by decide)
      (by decide)).2.1,
    (tabs_click_shows_target exDoc 1 3 "panel-b" (by decide) (by decide) (by decide)
      (by decide)).2.2 2 (by decide) (by decide)⟩

/-- C5: clicking the same trigger twice in a row, from any starting state
and for any captured trigger list, yields the same final marker state as
clicking it once: same ids, same `data-tab` attributes, and the same set of
class tokens on every element.  (Only the order of tokens inside the class
attribute can differ, in the corner case of a trigger that is its own
target; the marker state the spec speaks of is token presence.) -/
theorem tabs_click_idempotent (S : List Nat) (i : Nat) (d : Doc) :
    DocEquiv (clickState S i (clickState S i d)) (clickState S i d) := by
  constructor
  · rw [length_clickState, length_clickState]
  · intro k e e' h1 h2
    rw [getElem?_clickState, panels_clickState, resolveTarget_clickState, h2] at h1
    rw [getElem?_clickState] at h2
    cases hd : d[k]? with
    | none =>
      rw [hd] at h2
      exact absurd h2 (by simp)
    | some e0 =>
      rw [hd] at h2
      have he' : e' = elemStep S (panels d) i (resolveTarget d i) k e0 := by
        simpa using h2.symm
      have he : e = elemStep S (panels d) i (resolveTarget d i) k e' := by
        simpa using h1.symm
      rw [he, he']
      exact elemStep_equiv_idem S (panels d) i (resolveTarget d i) k e0

/-- C3 counterexample: on a trigger whose `data-tab` identifier resolves to
no element, the click handler does not run to completion: the TypeError
raised by `null.classList` escapes, refuting the claim that the activation
step is silently a no-op with no escaping exception. -/
theorem tabs_dangling_not_silent :
    getAttributeDataTab exDocDangling 0 = some "missing" ∧
    getElementById exDocDangling "missing" = none ∧
    0 ∈ tabsSnapshot exDocDangling ∧
    clickThrew (tabsSnapshot exDocDangling) 0 exDocDangling = true :=
  ⟨by decide, by decide, by decide, by decide⟩

/-- C3 amended: for every trigger whose `data-tab` identifier resolves to no
element, the activation step is not silent: the TypeError escapes the
handler, which stops right after marking the clicked trigger active,
leaving no panel visible. -/
theorem tabs_click_dangling_throws (d : Doc) (i : Nat) (s : String)
    (hi : i ∈ tabsSnapshot d)
    (hs : getAttributeDataTab d i = some s)
    (hnone : getElementById d s = none) :
    clickThrew (tabsSnapshot d) i d = true ∧
    activeAt (clickState (tabsSnapshot d) i d) i = true ∧
    ∀ k, panelAt d k = true → visibleAt (clickState (tabsSnapshot d) i d) k = false := by
  have hres : resolveTarget d i = none := by
    unfold resolveTarget
    rw [hs]
    exact hnone
  refine ⟨(clickThrew_iff _ i d).mpr hres, ?_, ?_⟩
  · rcases elemHas_iff.mp (mem_querySelectorAllClass.mp hi) with ⟨e, he, _⟩
    exact (activeAt_clickState _ i d i).mpr ⟨e, he, Or.inl rfl⟩
  · intro k hk
    rcases Bool.eq_false_or_eq_true (visibleAt (clickState (tabsSnapshot d) i d) k) with
      hb | hb
    · exfalso
      rcases (visibleAt_clickState _ i d k).mp hb with ⟨e, _, hrk | ⟨hP, _⟩⟩
      · rw [hres] at hrk
        exact Option.noConfusion hrk
      · exact hP (mem_querySelectorAllClass.mpr hk)
    · exact hb

/-- Witness for the amended C3 on the dangling-trigger document with a
panel: the handler throws, the trigger is active, the panel is not
visible. -/
theorem tabs_click_dangling_throws_witness :
    0 ∈ tabsSnapshot exDocInvariant ∧
    getAttributeDataTab exDocInvariant 0 = some "missing" ∧
    getElementById exDocInvariant "missing" = none ∧
    clickThrew (tabsSnapshot exDocInvariant) 0 exDocInvariant = true ∧
    activeAt (clickState (tabsSnapshot exDocInvariant) 0 exDocInvariant) 0 = true ∧
    visibleAt (clickState (tabsSnapshot exDocInvariant) 0 exDocInvariant) 1 = false :=
  ⟨by decide, by decide, by decide,
    (tabs_click_dangling_throws exDocInvariant 0 "missing" (by decide) (by decide)
      (by decide)).1,
    (tabs_click_dangling_throws exDocInvariant 0 "missing" (by decide) (by decide)
      (by decide)).2.1,
    (tabs_click_dangling_throws exDocInvariant 0 "missing" (by decide) (by decide)
      (by decide)).2.2 1 (by decide)⟩

/-- C4 counterexample: a state reachable by one click-handler invocation in
which a trigger is active while no panel is visible, violating the
claimed invariant clause that an active trigger has its matching panel
visible (the trigger's target names no panel at all). -/
theorem tabs_invariant_fails_dangling :
    0 ∈ tabsSnapshot exDocInvariant ∧
    getElementById exDocInvariant "missing" = none ∧
    activeAt (clickState (tabsSnapshot exDocInvariant) 0 exDocInvariant) 0 = true ∧
    panelAt (clickState (tabsSnapshot exDocInvariant) 0 exDocInvariant) 1 = true ∧
    ((panels (clickState (tabsSnapshot exDocInvariant) 0 exDocInvariant)).all
      (fun k => !visibleAt (clickState (tabsSnapshot exDocInvariant) 0 exDocInvariant) k))
      = true :=
  ⟨by decide, by decide, by decide, by decide, by decide⟩

/-- C4 amended (the selection invariant, restricted as the counterexample
forces): after any sequence of clicks on setup triggers followed by a click
on setup trigger `i`, at most one setup trigger is active (only `i` can
be), at most one panel is visible, and whenever the last click's target
resolves to a panel, that panel is visible.  The unrestricted claim fails:
the pre-click markup is unconstrained, and a dangling target leaves the
clicked trigger active with no panel visible. -/
theorem tabs_selection_invariant (d : Doc) (seq : List Nat) (i : Nat)
    (hi : i ∈ tabsSnapshot d)
    (hseq : ∀ x ∈ seq, x ∈ tabsSnapshot d) :
    (∀ t, t ∈ tabsSnapshot d →
        activeAt (clickState (tabsSnapshot d) i (clickSeq (tabsSnapshot d) seq d)) t = true →
        t = i) ∧
    (∀ k k', panelAt d k = true →
        visibleAt (clickState (tabsSnapshot d) i (clickSeq (tabsSnapshot d) seq d)) k = true →
        panelAt d k' = true →
        visibleAt (clickState (tabsSnapshot d) i (clickSeq (tabsSnapshot d) seq d)) k' = true →
        k = k') ∧
    (∀ j, resolveTarget d i = some j → panelAt d j = true →
        visibleAt (clickState (tabsSnapshot d) i (clickSeq (tabsSnapshot d) seq d)) j = true) := by
  have hres : resolveTarget (clickSeq (tabsSnapshot d) seq d) i = resolveTarget d i :=
    resolveTarget_clickSeq _ seq i d
  have hpanelmem : ∀ m, panelAt d m = true →
      m ∈ panels (clickSeq (tabsSnapshot d) seq d) := by
    intro m hm
    refine mem_querySelectorAllClass.mpr ?_
    show panelAt (clickSeq (tabsSnapshot d) seq d) m = true
    rw [panelAt_clickSeq]
    exact hm
  refine ⟨?_, ?_, ?_⟩
  · intro t ht hact
    rcases (activeAt_clickState _ i _ t).mp hact with ⟨e, _, hti | ⟨hS, _⟩⟩
    · exact hti
    · exact absurd ht hS
  · intro k k' hpk hvk hpk' hvk'
    have hk1 : resolveTarget d i = some k := by
      rcases (visibleAt_clickState _ i _ k).mp hvk with ⟨e, _, hrk | ⟨hP, _⟩⟩
      · rw [hres] at hrk
        exact hrk
      · exact absurd (hpanelmem k hpk) hP
    have hk2 : resolveTarget d i = some k' := by
      rcases (visibleAt_clickState _ i _ k').mp hvk' with ⟨e, _, hrk | ⟨hP, _⟩⟩
      · rw [hres] at hrk
        exact hrk
      · exact absurd (hpanelmem k' hpk') hP
    rw [hk1] at hk2
    exact Option.some.inj hk2
  · intro j hrj hpj
    have hpbj : panelAt (clickSeq (tabsSnapshot d) seq d) j = true := by
      rw [panelAt_clickSeq]
      exact hpj
    rcases elemHas_iff.mp hpbj with ⟨e, he, _⟩
    refine (visibleAt_clickState _ i _ j).mpr ⟨e, he, Or.inl ?_⟩
    rw [hres]
    exact hrj

/-- Witness for the amended C4 on the scenario document: after clicking
`tab-a` and then `tab-b`, the panel `panel-b` is visible. -/
theorem tabs_selection_invariant_witness :
    1 ∈ tabsSnapshot exDoc ∧
    resolveTarget exDoc 1 = some 3 ∧
    panelAt exDoc 3 = true ∧
    visibleAt (clickState (tabsSnapshot exDoc) 1 (clickSeq (tabsSnapshot exDoc) [0] exDoc)) 3
      = true :=
  ⟨by decide, by decide, by decide,
    (tabs_selection_invariant exDoc [0] 1 (by decide) (by decide)).2.2 3 (by decide)
      (by decide)⟩

/-- C6: for every trigger whose `data-tab` identifier names no existing
panel, the state after invoking its click handler has the trigger active
and no panel visible (whether the handler completed, having possibly put
the marker on a non-panel element, or threw). -/
theorem tabs_click_missing_panel (d : Doc) (i : Nat) (s : String)
    (hi : i ∈ tabsSnapshot d)
    (hs : getAttributeDataTab d i = some s)
    (hnp : ∀ k ∈ panels d, elemIdIs d k s = false) :
    activeAt (clickState (tabsSnapshot d) i d) i = true ∧
    ∀ k, panelAt d k = true → visibleAt (clickState (tabsSnapshot d) i d) k = false := by
  refine ⟨?_, ?_⟩
  · rcases elemHas_iff.mp (mem_querySelectorAllClass.mp hi) with ⟨e, he, _⟩
    exact (activeAt_clickState _ i d i).mpr ⟨e, he, Or.inl rfl⟩
  · intro k hk
    rcases Bool.eq_false_or_eq_true (visibleAt (clickState (tabsSnapshot d) i d) k) with
      hb | hb
    · exfalso
      rcases (visibleAt_clickState _ i d k).mp hb with ⟨e, _, hrk | ⟨hP, _⟩⟩
      · have hid : elemIdIs d k s = true := by
          refine getElementById_idIs (d := d) (s := s) ?_
          unfold resolveTarget at hrk
          rw [hs] at hrk
          exact hrk
        have hfalse := hnp k (mem_querySelectorAllClass.mpr hk)
        rw [hfalse] at hid
        exact Bool.noConfusion hid
      · exact hP (mem_querySelectorAllClass.mpr hk)
    · exact hb

/-- Witness for C6 on the mis-targeted document: the target id `x` names a
non-panel element, the trigger ends active and the (initially visible)
panel ends not visible. -/
theorem tabs_click_missing_panel_witness :
    0 ∈ tabsSnapshot exDocMisTarget ∧
    getAttributeDataTab exDocMisTarget 0 = some "x" ∧
    (∀ k ∈ panels exDocMisTarget, elemIdIs exDocMisTarget k "x" = false) ∧
    activeAt (clickState (tabsSnapshot exDocMisTarget) 0 exDocMisTarget) 0 = true ∧
    visibleAt (clickState (tabsSnapshot exDocMisTarget) 0 exDocMisTarget) 2 = false :=
  ⟨by decide, by decide, by decide,
    (tabs_click_missing_panel exDocMisTarget 0 "x" (by decide) (by decide) (by decide)).1,
    (tabs_click_missing_panel exDocMisTarget 0 "x" (by decide) (by decide) (by decide)).2
      2 (by decide)⟩

theorem bool_eq_of_true_iff {a b : Bool} (h : a = true ↔ b = true) : a = b := by
  cases a <;> cases b <;> simp_all

/-- C7: the trigger set is captured exactly once at setup: it is precisely
the set of elements carrying 'tab-button' in the setup document; an element
at an index beyond the setup document (added afterward) is not in the
captured set, and a later click never changes its 'active' marker. -/
theorem tabs_snapshot_fixed (d ext : Doc) (i k : Nat)
    (hi : i ∈ tabsSnapshot d) (hk : d.length ≤ k) :
    (∀ t, t ∈ tabsSnapshot d ↔ elemHas d t "tab-button" = true) ∧
    k ∉ tabsSnapshot d ∧
    activeAt (clickState (tabsSnapshot d) i (d ++ ext)) k = activeAt (d ++ ext) k := by
  have hnotmem : k ∉ tabsSnapshot d := by
    intro hmem
    have hlt := elemHas_lt_length (mem_querySelectorAllClass.mp hmem)
    exact Nat.lt_irrefl k (Nat.lt_of_lt_of_le hlt hk)
  have hki : k ≠ i := by
    intro hkeq
    subst hkeq
    have hlt := elemHas_lt_length (mem_querySelectorAllClass.mp hi)
    exact Nat.lt_irrefl k (Nat.lt_of_lt_of_le hlt hk)
  refine ⟨fun t => mem_querySelectorAllClass, hnotmem, ?_⟩
  apply bool_eq_of_true_iff
  constructor
  · intro h
    rcases (activeAt_clickState _ i (d ++ ext) k).mp h with ⟨e, he, hk2 | ⟨_, hmem⟩⟩
    · exact absurd hk2 hki
    · exact elemHas_iff.mpr ⟨e, he, hmem⟩
  · intro h
    rcases elemHas_iff.mp h with ⟨e, he, hmem⟩
    exact (activeAt_clickState _ i (d ++ ext) k).mpr ⟨e, he, Or.inr ⟨hnotmem, hmem⟩⟩

/-- Witness for C7: a trigger appended after setup (already marked active)
is outside the captured set and keeps its 'active' marker across a click on
a setup trigger. -/
theorem tabs_snapshot_fixed_witness :
    0 ∈ tabsSnapshot exDocBase ∧
    (0 ∈ tabsSnapshot exDocBase ↔ elemHas exDocBase 0 "tab-button" = true) ∧
    1 ∉ tabsSnapshot exDocBase ∧
    activeAt (clickState (tabsSnapshot exDocBase) 0 (exDocBase ++ exDocLateTrigger)) 1
      = activeAt (exDocBase ++ exDocLateTrigger) 1 :=
  ⟨by decide,
    (tabs_snapshot_fixed exDocBase exDocLateTrigger 0 1 (by decide) (by decide)).1 0,
    (tabs_snapshot_fixed exDocBase exDocLateTrigger 0 1 (by decide) (by decide)).2.1,
    (tabs_snapshot_fixed exDocBase exDocLateTrigger 0 1 (by decide) (by decide)).2.2⟩

/-- C8 counterexample: clicking the trigger of `exDocFrame` modifies element
1 even though it is neither a trigger nor a panel: the element gains the
'visible' marker because the trigger's `data-tab` id resolves to it.  This
refutes the claim that only trigger and panel elements are mutated. -/
theorem tabs_frame_violated :
    elemHas exDocFrame 1 "tab-button" = false ∧
    elemHas exDocFrame 1 "tab-content" = false ∧
    visibleAt exDocFrame 1 = false ∧
    visibleAt (clickState (tabsSnapshot exDocFrame) 0 exDocFrame) 1 = true :=
  ⟨by decide, by decide, by decide, by decide⟩

/-- C8 amended: a click creates and destroys nothing (the length is
unchanged) and changes no id, no `data-tab` attribute and no class other
than 'active' and 'visible'; every element that is outside the captured
trigger set and the click-time panel set, is not the clicked trigger and is
not the resolved target is left entirely unchanged.  (The resolved target
may lie outside both collections, which is what refutes the original
claim.) -/
theorem tabs_frame_condition (d : Doc) (i : Nat) :
    (clickState (tabsSnapshot d) i d).length = d.length ∧
    (∀ k s, elemIdIs (clickState (tabsSnapshot d) i d) k s = elemIdIs d k s) ∧
    (∀ k, getAttributeDataTab (clickState (tabsSnapshot d) i d) k
      = getAttributeDataTab d k) ∧
    (∀ k c, c ≠ "active" → c ≠ "visible" →
      elemHas (clickState (tabsSnapshot d) i d) k c = elemHas d k c) ∧
    (∀ k, k ∉ tabsSnapshot d → k ≠ i → k ∉ panels d → resolveTarget d i ≠ some k →
      (clickState (tabsSnapshot d) i d)[k]? = d[k]?) := by
  refine ⟨length_clickState _ i d,
    fun k s => elemIdIs_clickState _ i d k s,
    fun k => getAttributeDataTab_clickState _ i d k,
    fun k c ha hv => elemHas_clickState_other _ i d k ha hv, ?_⟩
  intro k hkS hki hkP hkr
  rw [getElem?_clickState]
  cases hd : d[k]? with
  | none => rfl
  | some e => simp [elemStep, hkS, hkP, hki, hkr]

/-- Witness for the amended C8 on the mis-targeted document: element 3 (a
plain element that is no trigger, no panel, not clicked and not the
resolved target) is entirely unchanged by the click, and ids, attributes
and unrelated classes are preserved everywhere. -/
theorem tabs_frame_condition_witness :
    (clickState (tabsSnapshot exDocMisTarget) 0 exDocMisTarget).length
      = exDocMisTarget.length ∧
    elemIdIs (clickState (tabsSnapshot exDocMisTarget) 0 exDocMisTarget) 2 "panel-a"
      = elemIdIs exDocMisTarget 2 "panel-a" ∧
    elemHas (clickState (tabsSnapshot exDocMisTarget) 0 exDocMisTarget) 3 "note"
      = elemHas exDocMisTarget 3 "note" ∧
    (clickState (tabsSnapshot exDocMisTarget) 0 exDocMisTarget)[3]?
      = exDocMisTarget[3]? :=
  ⟨(tabs_frame_condition exDocMisTarget 0).1,
    (tabs_frame_condition exDocMisTarget 0).2.1 2 "panel-a",
    (tabs_frame_condition exDocMisTarget 0).2.2.2.1 3 "note" (by decide) (by decide),
    (tabs_frame_condition exDocMisTarget 0).2.2.2.2 3 (by decide) (by decide) (by decide)
      (by decide)⟩

/-- C9: the panel set is recomputed at each click, so a panel appended
after setup still has its 'visible' marker cleared by the clearing phase of
the next click; and the target is resolved by id over the whole current
document, so an element appended after setup becomes visible when the
clicked trigger's id resolves to it. -/
theorem tabs_panels_recomputed (d ext : Doc) (i k : Nat)
    (hk : d.length ≤ k)
    (hp : panelAt (d ++ ext) k = true) :
    visibleAt (hideAllPanels (deactivateAll (tabsSnapshot d) (d ++ ext))) k = false ∧
    ∀ j, resolveTarget (d ++ ext) i = some j →
      visibleAt (clickState (tabsSnapshot d) i (d ++ ext)) j = true := by
  refine ⟨?_, ?_⟩
  · have h1 : elemHas (deactivateAll (tabsSnapshot d) (d ++ ext)) k "tab-content" = true := by
      unfold deactivateAll
      rw [elemHas_removeClassAll_ne (by decide)]
      exact hp
    have hmem : k ∈ querySelectorAllClass (deactivateAll (tabsSnapshot d) (d ++ ext))
        "tab-content" := mem_querySelectorAllClass.mpr h1
    unfold visibleAt elemHas hideAllPanels
    rw [getElem?_removeClassAll, if_pos hmem]
    cases (deactivateAll (tabsSnapshot d) (d ++ ext))[k]? with
    | none => rfl
    | some e => simp [mem_classes_classListRemove]
  · intro j hrj
    have hj : elemIdIs (d ++ ext) j (idArg (getAttributeDataTab (d ++ ext) i)) = true :=
      getElementById_idIs hrj
    rcases elemIdIs_iff.mp hj with ⟨e, he, _⟩
    exact (visibleAt_clickState _ i (d ++ ext) j).mpr ⟨e, he, Or.inl hrj⟩

/-- Witness for C9: a visible panel appended after setup is cleared by the
clearing phase of the next click, and since the setup trigger targets its
id, it is visible again once the click completes. -/
theorem tabs_panels_recomputed_witness :
    exDocBase.length ≤ 1 ∧
    panelAt (exDocBase ++ exDocLate) 1 = true ∧
    visibleAt (hideAllPanels (deactivateAll (tabsSnapshot exDocBase)
      (exDocBase ++ exDocLate))) 1 = false ∧
    resolveTarget (exDocBase ++ exDocLate) 0 = some 1 ∧
    visibleAt (clickState (tabsSnapshot exDocBase) 0 (exDocBase ++ exDocLate)) 1 = true :=
  ⟨by decide, by decide,
    (tabs_panels_recomputed exDocBase exDocLate 0 1 (by decide) (by decide)).1,
    by decide,
    (tabs_panels_recomputed exDocBase exDocLate 0 1 (by decide) (by decide)).2 1
      (by decide)⟩

/-- C10 counterexample: a trigger with no `data-tab` attribute does not
necessarily make the handler throw: `getAttribute` returns null, WebIDL
converts it to the string "null", and in a document containing an element
whose id is "null" the lookup succeeds, the element gains 'visible' and the
handler completes normally. -/
theorem tabs_no_attribute_completes :
    getAttributeDataTab exDocNullId 0 = none ∧
    0 ∈ tabsSnapshot exDocNullId ∧
    clickThrew (tabsSnapshot exDocNullId) 0 exDocNullId = false ∧
    visibleAt (clickState (tabsSnapshot exDocNullId) 0 exDocNullId) 1 = true :=
  ⟨by decide, by decide, by decide, by decide⟩

/-- C10 amended: for every trigger with no `data-tab` attribute, in a
document where no element has id "null", the click handler clears the
captured triggers and current panels, marks the clicked trigger active,
then the id lookup yields nothing and the handler terminates abnormally
with the TypeError, leaving the clicked trigger active, every other
captured trigger inactive and no panel visible. -/
theorem tabs_click_no_attribute_throws (d : Doc) (i : Nat)
    (hi : i ∈ tabsSnapshot d)
    (hattr : getAttributeDataTab d i = none)
    (hnull : getElementById d "null" = none) :
    clickThrew (tabsSnapshot d) i d = true ∧
    activeAt (clickState (tabsSnapshot d) i d) i = true ∧
    (∀ t, t ∈ tabsSnapshot d → t ≠ i →
      activeAt (clickState (tabsSnapshot d) i d) t = false) ∧
    (∀ k, panelAt d k = true → visibleAt (clickState (tabsSnapshot d) i d) k = false) := by
  have hres : resolveTarget d i = none := by
    unfold resolveTarget
    rw [hattr]
    exact hnull
  refine ⟨(clickThrew_iff _ i d).mpr hres, ?_, ?_, ?_⟩
  · rcases elemHas_iff.mp (mem_querySelectorAllClass.mp hi) with ⟨e, he, _⟩
    exact (activeAt_clickState _ i d i).mpr ⟨e, he, Or.inl rfl⟩
  · intro t ht hne
    rcases Bool.eq_false_or_eq_true (activeAt (clickState (tabsSnapshot d) i d) t) with
      hb | hb
    · exfalso
      rcases (activeAt_clickState _ i d t).mp hb with ⟨e, _, hti | ⟨hS, _⟩⟩
      · exact hne hti
      · exact hS ht
    · exact hb
  · intro k hk
    rcases Bool.eq_false_or_eq_true (visibleAt (clickState (tabsSnapshot d) i d) k) with
      hb | hb
    · exfalso
      rcases (visibleAt_clickState _ i d k).mp hb with ⟨e, _, hrk | ⟨hP, _⟩⟩
      · rw [hres] at hrk
        exact Option.noConfusion hrk
      · exact hP (mem_querySelectorAllClass.mpr hk)
    · exact hb

/-- Witness for the amended C10 on the attribute-less document: the handler
throws, the trigger ends active and the (initially visible) panel ends not
visible. -/
theorem tabs_click_no_attribute_throws_witness :
    0 ∈ tabsSnapshot exDocNoAttr ∧
    getAttributeDataTab exDocNoAttr 0 = none ∧
    getElementById exDocNoAttr "null" = none ∧
    clickThrew (tabsSnapshot exDocNoAttr) 0 exDocNoAttr = true ∧
    activeAt (clickState (tabsSnapshot exDocNoAttr) 0 exDocNoAttr) 0 = true ∧
    visibleAt (clickState (tabsSnapshot exDocNoAttr) 0 exDocNoAttr) 1 = false :=
  ⟨by decide, by decide, by decide,
    (tabs_click_no_attribute_throws exDocNoAttr 0 (by decide) (by decide) (by decide)).1,
    (tabs_click_no_attribute_throws exDocNoAttr 0 (by decide) (by decide) (by decide)).2.1,
    (tabs_click_no_attribute_throws exDocNoAttr 0 (by decide) (by decide)
      (by decide)).2.2.2 1 (by decide)⟩

end Tabs
